import Mathlib

/-!
Verification of the fn-key event-tap supervisor and trigger state machine of
the spaceduck desktop application (apps/desktop/src-tauri/src/fn_key_monitor.rs).

The Rust module installs a HID-level CGEventTap listening for FlagsChanged
events, drives a two-field trigger state (FN_IS_DOWN : AtomicBool,
RECORDING_MODE : AtomicU8 with 0 = idle, 1 = chat, 2 = global), and emits
dictation start/stop signals on press/release edges of the Fn key.  A retry
loop (start) reinstalls the tap with a 2-second backoff on every failure, and
a bounded pump (the loop at the end of run_tap) re-enables the tap after each
5-second run-loop quantum.

This file gives a shallow embedding of that code and proves the specified
properties of the callback, the invariant of the trigger state, the focus
probe, and the supervision loops.
-/

namespace Spaceduck

/-- The trigger state: the two process-wide atomics of fn_key_monitor.rs.
FN_IS_DOWN is the Bool, RECORDING_MODE the u8 (only 0, 1, 2 are ever stored). -/
structure TriggerState where
  fnIsDown : Bool
  recordingMode : Nat
deriving DecidableEq

/-- Initial values of the statics: AtomicBool::new(false), AtomicU8::new(0). -/
def initialState : TriggerState := { fnIsDown := false, recordingMode := 0 }

/-- kCGEventFlagMaskSecondaryFn, the Fn-key bit of the CGEventFlags bitmask. -/
def CGEventFlagSecondaryFn : Nat := 0x800000

/-- flags.contains(CGEventFlags::CGEventFlagSecondaryFn): all bits of the mask
are set in the event flags. -/
def secondaryFnSet (flags : Nat) : Bool :=
  flags &&& CGEventFlagSecondaryFn == CGEventFlagSecondaryFn

/-- raw_type == 0xFFFFFFFE || raw_type == 0xFFFFFFFF: the two sentinel
tap-disabled event types (disabled-by-timeout, disabled-by-user-input). -/
def isSentinelType (rawType : Nat) : Bool :=
  rawType == 0xFFFFFFFE || rawType == 0xFFFFFFFF

/-- Outcome of the focus query performed inside the down-edge branch: each
nullable handle of the ObjC call chain (keyWindow, title, UTF8String) gives a
failure case; otherwise the title string is obtained. -/
inductive FocusProbeResult where
  | noKeyWindow : FocusProbeResult
  | noTitle : FocusProbeResult
  | nullUtf8 : FocusProbeResult
  | title : String → FocusProbeResult
deriving DecidableEq

/-- The main_window_is_key computation of the callback: false on any null
handle, otherwise the key window title compared to "spaceduck". -/
def main_window_is_key : FocusProbeResult → Bool
  | .noKeyWindow => false
  | .noTitle => false
  | .nullUtf8 => false
  | .title s => s == "spaceduck"

/-- One raw event delivered to the tap callback: its reported type, its
CGEventFlags bitmask, and the focus environment the probe would observe if
queried during this invocation. -/
structure RawEvent where
  rawType : Nat
  flags : Nat
  focus : FocusProbeResult
deriving DecidableEq

/-- The four dictation signals emitted via handle.emit. -/
inductive Signal where
  | startChat : Signal
  | startGlobal : Signal
  | stopChat : Signal
  | stopGlobal : Signal
deriving DecidableEq

/-- Observable side effects of one callback invocation, in program order. -/
inductive Effect where
  | reenableTap : Effect
  | repositionPill : Effect
  | emit : Signal → Effect
deriving DecidableEq

/-- The CGEventTap callback closure of run_tap.  portNull records whether
TAP_PORT currently holds a null pointer.  Returns the successor state, the
list of side effects in program order, and the callback result (always None:
no replacement event). -/
def tapCallback (portNull : Bool) (st : TriggerState) (ev : RawEvent) :
    TriggerState × List Effect × Option Unit :=
  if isSentinelType ev.rawType then
    (st, if portNull then [] else [Effect.reenableTap], none)
  else
    let fn_down := secondaryFnSet ev.flags
    let was_down := st.fnIsDown
    if fn_down && !was_down then
      if main_window_is_key ev.focus then
        ({ fnIsDown := true, recordingMode := 1 },
          [Effect.emit Signal.startChat], none)
      else
        ({ fnIsDown := true, recordingMode := 2 },
          [Effect.repositionPill, Effect.emit Signal.startGlobal], none)
    else if !fn_down && was_down then
      match st.recordingMode with
      | 1 => ({ fnIsDown := false, recordingMode := 0 },
          [Effect.emit Signal.stopChat], none)
      | 2 => ({ fnIsDown := false, recordingMode := 0 },
          [Effect.emit Signal.stopGlobal], none)
      | _ => ({ fnIsDown := false, recordingMode := 0 }, [], none)
    else
      (st, [], none)

/-- Run the callback over a sequence of delivered events, accumulating the
effects in delivery order. -/
def runEvents (portNull : Bool) (st : TriggerState) :
    List RawEvent → TriggerState × List Effect
  | [] => (st, [])
  | ev :: rest =>
    let step := tapCallback portNull st ev
    let tail := runEvents portNull step.1 rest
    (tail.1, step.2.1 ++ tail.2)

/-- Projection of an effect to the signal it emits, if any. -/
def effectSignal : Effect → Option Signal
  | .emit s => some s
  | _ => none

/-- The signals emitted by a list of effects, in order. -/
def signalsOf (es : List Effect) : List Signal := es.filterMap effectSignal

/-- A delivered event is a down-edge: not a sentinel, Fn bit set, and the
recorded key state was up. -/
def isDownEdge (st : TriggerState) (ev : RawEvent) : Bool :=
  !isSentinelType ev.rawType && secondaryFnSet ev.flags && !st.fnIsDown

/-- A delivered event is an up-edge: not a sentinel, Fn bit clear, and the
recorded key state was down. -/
def isUpEdge (st : TriggerState) (ev : RawEvent) : Bool :=
  !isSentinelType ev.rawType && !secondaryFnSet ev.flags && st.fnIsDown

/-- Is this signal a start signal? -/
def isStartSignal : Signal → Bool
  | .startChat => true
  | .startGlobal => true
  | _ => false

/-- Number of start signals among the effects. -/
def countStarts (es : List Effect) : Nat :=
  ((signalsOf es).filter isStartSignal).length

/-- Number of true down-edges along a delivered event sequence, tracking the
state the callback itself would evolve. -/
def countDownEdges (portNull : Bool) (st : TriggerState) : List RawEvent → Nat
  | [] => 0
  | ev :: rest =>
    (if isDownEdge st ev then 1 else 0) +
      countDownEdges portNull (tapCallback portNull st ev).1 rest

theorem signalsOf_append (a b : List Effect) :
    signalsOf (a ++ b) = signalsOf a ++ signalsOf b := by
  simp [signalsOf]

theorem countStarts_append (a b : List Effect) :
    countStarts (a ++ b) = countStarts a + countStarts b := by
  simp [countStarts, signalsOf]

theorem step_countStarts (pn : Bool) (st : TriggerState) (ev : RawEvent) :
    countStarts (tapCallback pn st ev).2.1 = if isDownEdge st ev then 1 else 0 := by
  rcases st with ⟨down, mode⟩
  cases pn <;> cases hs : isSentinelType ev.rawType <;>
    cases hf : secondaryFnSet ev.flags <;> cases down <;>
    cases hm : main_window_is_key ev.focus <;>
    rcases mode with _ | _ | _ | m <;>
    simp [tapCallback, isDownEdge, hs, hf, hm, countStarts, signalsOf,
      effectSignal, isStartSignal]

theorem tapCallback_noEdge (pn : Bool) (st : TriggerState) (ev : RawEvent)
    (hs : isSentinelType ev.rawType = false)
    (h : secondaryFnSet ev.flags = st.fnIsDown) :
    tapCallback pn st ev = (st, [], none) := by
  rcases st with ⟨down, mode⟩
  cases down <;> simp_all [tapCallback]

theorem countStarts_runEvents (pn : Bool) (st : TriggerState) (evs : List RawEvent) :
    countStarts (runEvents pn st evs).2 = countDownEdges pn st evs := by
  induction evs generalizing st with
  | nil => rfl
  | cons ev rest ih =>
    simp [runEvents, countDownEdges, countStarts_append, step_countStarts, ih]

/-- Claim C1: over any delivered event sequence, the number of start signal
emissions equals the number of true down-edges (Fn flag set while the
recorded key state was up), and a delivery that is not an edge (the Fn bit
equal to the recorded state, which covers repeated still-set or still-clear
deliveries and changes confined to other modifier bits) mutates no state and
emits nothing. -/
theorem claim1_starts_eq_downEdges (pn : Bool) (st : TriggerState)
    (evs : List RawEvent) :
    countStarts (runEvents pn st evs).2 = countDownEdges pn st evs ∧
    ∀ ev : RawEvent, isSentinelType ev.rawType = false →
      secondaryFnSet ev.flags = st.fnIsDown →
      tapCallback pn st ev = (st, [], none) :=
  ⟨countStarts_runEvents pn st evs, fun ev hs h => tapCallback_noEdge pn st ev hs h⟩

/-- Witness for claim C1 at a concrete non-edge delivery: an event carrying
only the shift bit while the key is recorded up leaves the state untouched
and emits nothing. -/
theorem claim1_witness :
    tapCallback false initialState
      { rawType := 12, flags := 0x20000, focus := FocusProbeResult.noKeyWindow } =
      (initialState, [], none) :=
  (claim1_starts_eq_downEdges false initialState []).2
    { rawType := 12, flags := 0x20000, focus := FocusProbeResult.noKeyWindow }
    (by decide) (by decide)

/-- The TriggerState invariant at stable observation points: the mode is
idle exactly when the key is recorded up, and only the three stored mode
values occur. -/
def stateInv (st : TriggerState) : Prop :=
  (st.recordingMode = 0 ↔ st.fnIsDown = false) ∧ st.recordingMode ≤ 2

instance : DecidablePred stateInv := fun st => by
  unfold stateInv
  infer_instance

theorem stateInv_step (pn : Bool) (st : TriggerState) (ev : RawEvent)
    (h : stateInv st) : stateInv (tapCallback pn st ev).1 := by
  rcases st with ⟨down, mode⟩
  cases pn <;> cases hs : isSentinelType ev.rawType <;>
    cases hf : secondaryFnSet ev.flags <;> cases down <;>
    cases hm : main_window_is_key ev.focus <;>
    rcases mode with _ | _ | _ | m <;>
    simp_all [tapCallback, stateInv]

/-- Claim C5: the invariant (activeMode is Idle exactly when the key is
recorded up, hence a non-Idle mode implies the key is down) holds of the
initial static values and is preserved by every complete callback
invocation, whatever event is delivered. -/
theorem claim5_invariant_preserved :
    stateInv initialState ∧
    ∀ (pn : Bool) (st : TriggerState) (ev : RawEvent),
      stateInv st → stateInv (tapCallback pn st ev).1 :=
  ⟨by simp [stateInv, initialState], fun pn st ev h => stateInv_step pn st ev h⟩

/-- Witness for claim C5: the invariant survives a concrete down-edge
delivery from the initial state. -/
theorem claim5_witness :
    stateInv (tapCallback false initialState
      { rawType := 12, flags := 0x800000, focus := FocusProbeResult.noKeyWindow }).1 :=
  claim5_invariant_preserved.2 false initialState
    { rawType := 12, flags := 0x800000, focus := FocusProbeResult.noKeyWindow }
    (by decide)

/-- The signal protocol automaton: its state is the mode whose stop signal
is currently owed.  From idle only a start may occur, committing its mode;
from an active mode only the matching stop may occur, returning to idle. -/
def sigStep : Nat → Signal → Option Nat
  | 0, Signal.startChat => some 1
  | 0, Signal.startGlobal => some 2
  | 1, Signal.stopChat => some 0
  | 2, Signal.stopGlobal => some 0
  | _, _ => none

/-- Run the protocol automaton over a signal list; none means the list
violates the start/stop pairing protocol. -/
def sigRun : Nat → List Signal → Option Nat
  | s, [] => some s
  | s, sig :: rest =>
    match sigStep s sig with
    | some s2 => sigRun s2 rest
    | none => none

theorem sigRun_append (s : Nat) (a b : List Signal) :
    sigRun s (a ++ b) =
      match sigRun s a with
      | some s2 => sigRun s2 b
      | none => none := by
  induction a generalizing s with
  | nil => rfl
  | cons x xs ih =>
    cases h : sigStep s x <;> simp [sigRun, h, ih]

theorem sigRun_step (pn : Bool) (st : TriggerState) (ev : RawEvent)
    (h : stateInv st) :
    sigRun st.recordingMode (signalsOf (tapCallback pn st ev).2.1) =
      some (tapCallback pn st ev).1.recordingMode := by
  rcases st with ⟨down, mode⟩
  cases pn <;> cases hs : isSentinelType ev.rawType <;>
    cases hf : secondaryFnSet ev.flags <;> cases down <;>
    cases hm : main_window_is_key ev.focus <;>
    rcases mode with _ | _ | _ | m <;>
    simp_all [tapCallback, stateInv, signalsOf, effectSignal, sigRun, sigStep]

theorem sigRun_runEvents (pn : Bool) (st : TriggerState) (evs : List RawEvent)
    (h : stateInv st) :
    sigRun st.recordingMode (signalsOf (runEvents pn st evs).2) =
      some (runEvents pn st evs).1.recordingMode := by
  induction evs generalizing st with
  | nil => rfl
  | cons ev rest ih =>
    have h1 := stateInv_step pn st ev h
    have h2 := sigRun_step pn st ev h
    simp only [runEvents, signalsOf_append, sigRun_append, h2]
    exact ih _ h1

theorem tapCallback_upEdge_signals (pn : Bool) (st : TriggerState)
    (ev : RawEvent) (h : isUpEdge st ev = true) :
    signalsOf (tapCallback pn st ev).2.1 =
      (if st.recordingMode = 1 then [Signal.stopChat]
       else if st.recordingMode = 2 then [Signal.stopGlobal] else []) := by
  rcases st with ⟨down, mode⟩
  cases pn <;> cases hs : isSentinelType ev.rawType <;>
    cases hf : secondaryFnSet ev.flags <;> cases down <;>
    rcases mode with _ | _ | _ | m <;>
    simp_all [tapCallback, isUpEdge, signalsOf, effectSignal]

theorem stop_only_at_upEdge (pn : Bool) (st : TriggerState) (ev : RawEvent)
    (sig : Signal) (hmem : sig ∈ signalsOf (tapCallback pn st ev).2.1)
    (hns : isStartSignal sig = false) : isUpEdge st ev = true := by
  rcases st with ⟨down, mode⟩
  cases sig <;> simp_all [isStartSignal] <;>
    cases pn <;> cases hs : isSentinelType ev.rawType <;>
    cases hf : secondaryFnSet ev.flags <;> cases down <;>
    cases hm : main_window_is_key ev.focus <;>
    rcases mode with _ | _ | _ | m <;>
    simp_all [tapCallback, isUpEdge, signalsOf, effectSignal]

/-- Claim C2: from any state satisfying the invariant, the emitted signal
sequence of a whole delivery run follows the pairing protocol automaton
(each start is followed by exactly one stop of the same mode before any
other signal of that hold, never preceded by it), the automaton finishing
exactly in the final recording mode; moreover an up-edge taken while the
mode is Idle emits nothing, an up-edge taken in an active mode emits
precisely the matching stop, and stop signals are emitted only at
up-edges. -/
theorem claim2_stop_pairing (pn : Bool) (st : TriggerState)
    (evs : List RawEvent) (h : stateInv st) :
    (sigRun st.recordingMode (signalsOf (runEvents pn st evs).2) =
      some (runEvents pn st evs).1.recordingMode) ∧
    (∀ ev : RawEvent, isUpEdge st ev = true →
      signalsOf (tapCallback pn st ev).2.1 =
        (if st.recordingMode = 1 then [Signal.stopChat]
         else if st.recordingMode = 2 then [Signal.stopGlobal] else [])) ∧
    (∀ ev : RawEvent, ∀ sig : Signal,
      sig ∈ signalsOf (tapCallback pn st ev).2.1 → isStartSignal sig = false →
      isUpEdge st ev = true) :=
  ⟨sigRun_runEvents pn st evs h,
   fun ev hup => tapCallback_upEdge_signals pn st ev hup,
   fun ev sig hmem hns => stop_only_at_upEdge pn st ev sig hmem hns⟩

/-- Witness for claim C2: a concrete press/release pair from the initial
state drives the pairing automaton from idle back to idle. -/
theorem claim2_witness :
    sigRun initialState.recordingMode
      (signalsOf (runEvents false initialState
        [{ rawType := 12, flags := 0x800000, focus := FocusProbeResult.noKeyWindow },
         { rawType := 12, flags := 0, focus := FocusProbeResult.noKeyWindow }]).2) =
      some (runEvents false initialState
        [{ rawType := 12, flags := 0x800000, focus := FocusProbeResult.noKeyWindow },
         { rawType := 12, flags := 0, focus := FocusProbeResult.noKeyWindow }]).1.recordingMode :=
  (claim2_stop_pairing false initialState
    [{ rawType := 12, flags := 0x800000, focus := FocusProbeResult.noKeyWindow },
     { rawType := 12, flags := 0, focus := FocusProbeResult.noKeyWindow }]
    (by decide)).1

theorem runEvents_cons (pn : Bool) (st : TriggerState) (ev : RawEvent)
    (rest : List RawEvent) :
    runEvents pn st (ev :: rest) =
      ((runEvents pn (tapCallback pn st ev).1 rest).1,
       (tapCallback pn st ev).2.1 ++ (runEvents pn (tapCallback pn st ev).1 rest).2) :=
  rfl

theorem runEvents_append (pn : Bool) (st : TriggerState) (a b : List RawEvent) :
    runEvents pn st (a ++ b) =
      ((runEvents pn (runEvents pn st a).1 b).1,
       (runEvents pn st a).2 ++ (runEvents pn (runEvents pn st a).1 b).2) := by
  induction a generalizing st with
  | nil => simp [runEvents]
  | cons ev rest ih => simp [runEvents_cons, ih]

theorem tapCallback_downEdge (pn : Bool) (st : TriggerState) (ev : RawEvent)
    (h : isDownEdge st ev = true) :
    tapCallback pn st ev =
      (if main_window_is_key ev.focus
        then ({ fnIsDown := true, recordingMode := 1 },
          [Effect.emit Signal.startChat], none)
        else ({ fnIsDown := true, recordingMode := 2 },
          [Effect.repositionPill, Effect.emit Signal.startGlobal], none)) := by
  rcases st with ⟨down, mode⟩
  cases hs : isSentinelType ev.rawType <;> cases hf : secondaryFnSet ev.flags <;>
    cases down <;> cases hm : main_window_is_key ev.focus <;>
    simp_all [tapCallback, isDownEdge]

theorem tapCallback_holdStep (pn : Bool) (st : TriggerState) (ev : RawEvent)
    (hdown : st.fnIsDown = true)
    (h : isSentinelType ev.rawType = true ∨ secondaryFnSet ev.flags = true) :
    (tapCallback pn st ev).1 = st ∧ signalsOf (tapCallback pn st ev).2.1 = [] := by
  cases hs : isSentinelType ev.rawType
  · rcases h with h | h
    · rw [hs] at h
      exact absurd h (by simp)
    · have := tapCallback_noEdge pn st ev hs (by rw [h, hdown])
      simp [this, signalsOf]
  · cases pn <;> simp [tapCallback, hs, signalsOf, effectSignal]

theorem runEvents_holdMids (pn : Bool) (mids : List RawEvent)
    (st : TriggerState) (hdown : st.fnIsDown = true)
    (hm : ∀ ev ∈ mids,
      isSentinelType ev.rawType = true ∨ secondaryFnSet ev.flags = true) :
    (runEvents pn st mids).1 = st ∧ signalsOf (runEvents pn st mids).2 = [] := by
  induction mids generalizing st with
  | nil => exact ⟨rfl, rfl⟩
  | cons ev rest ih =>
    obtain ⟨h1, h2⟩ := tapCallback_holdStep pn st ev hdown (hm ev (by simp))
    have hrest := ih st hdown (fun e he => hm e (by simp [he]))
    rw [runEvents_cons, h1]
    exact ⟨hrest.1, by simp [signalsOf_append, h2, hrest.2]⟩

/-- Claim C3: focus is sampled only at the down-edge.  A down-edge with a
focused probe commits mode Chat and emits start-chat; an unfocused probe
commits mode Global, invokes the floating-indicator repositioning side
effect, and emits start-global.  For a whole hold, whatever focus values
later deliveries carry while the key stays down, the signal trace of the
hold is exactly the start/stop pair of the mode chosen at press time. -/
theorem claim3_focus_fixed_at_press (pn : Bool) (st : TriggerState)
    (evD : RawEvent) (mids : List RawEvent) (evU : RawEvent)
    (hD : isDownEdge st evD = true)
    (hmids : ∀ ev ∈ mids,
      isSentinelType ev.rawType = true ∨ secondaryFnSet ev.flags = true)
    (hU : isSentinelType evU.rawType = false)
    (hUf : secondaryFnSet evU.flags = false) :
    (tapCallback pn st evD).1.recordingMode =
      (if main_window_is_key evD.focus then 1 else 2) ∧
    (tapCallback pn st evD).2.1 =
      (if main_window_is_key evD.focus then [Effect.emit Signal.startChat]
       else [Effect.repositionPill, Effect.emit Signal.startGlobal]) ∧
    signalsOf (runEvents pn st (evD :: (mids ++ [evU]))).2 =
      (if main_window_is_key evD.focus
        then [Signal.startChat, Signal.stopChat]
        else [Signal.startGlobal, Signal.stopGlobal]) := by
  have hstep := tapCallback_downEdge pn st evD hD
  cases hm : main_window_is_key evD.focus
  · rw [hm] at hstep
    simp at hstep
    have hmids2 := runEvents_holdMids pn mids
      { fnIsDown := true, recordingMode := 2 } rfl hmids
    have hup : isUpEdge { fnIsDown := true, recordingMode := (2 : Nat) } evU = true := by
      simp [isUpEdge, hU, hUf]
    have hupsig := tapCallback_upEdge_signals pn
      { fnIsDown := true, recordingMode := 2 } evU hup
    simp at hupsig
    refine ⟨by simp [hstep], by simp [hstep], ?_⟩
    rw [runEvents_cons, hstep]
    simp only [runEvents_append, signalsOf_append]
    rw [hmids2.1, hmids2.2]
    rw [runEvents_cons]
    simp only [runEvents, signalsOf_append]
    rw [hupsig]
    simp [signalsOf, effectSignal]
  · rw [hm] at hstep
    simp at hstep
    have hmids2 := runEvents_holdMids pn mids
      { fnIsDown := true, recordingMode := 1 } rfl hmids
    have hup : isUpEdge { fnIsDown := true, recordingMode := (1 : Nat) } evU = true := by
      simp [isUpEdge, hU, hUf]
    have hupsig := tapCallback_upEdge_signals pn
      { fnIsDown := true, recordingMode := 1 } evU hup
    simp at hupsig
    refine ⟨by simp [hstep], by simp [hstep], ?_⟩
    rw [runEvents_cons, hstep]
    simp only [runEvents_append, signalsOf_append]
    rw [hmids2.1, hmids2.2]
    rw [runEvents_cons]
    simp only [runEvents, signalsOf_append]
    rw [hupsig]
    simp [signalsOf, effectSignal]

/-- Witness for claim C3: a concrete hold with the main window focused at
press time and a still-down delivery in the middle emits exactly the chat
start/stop pair. -/
theorem claim3_witness :
    (tapCallback false initialState
      { rawType := 12, flags := 0x800000,
        focus := FocusProbeResult.title "spaceduck" }).1.recordingMode =
      (if main_window_is_key (FocusProbeResult.title "spaceduck") then 1 else 2) ∧
    (tapCallback false initialState
      { rawType := 12, flags := 0x800000,
        focus := FocusProbeResult.title "spaceduck" }).2.1 =
      (if main_window_is_key (FocusProbeResult.title "spaceduck")
        then [Effect.emit Signal.startChat]
        else [Effect.repositionPill, Effect.emit Signal.startGlobal]) ∧
    signalsOf (runEvents false initialState
      ({ rawType := 12, flags := 0x800000,
         focus := FocusProbeResult.title "spaceduck" } ::
        ([{ rawType := 12, flags := 0x800000, focus := FocusProbeResult.noKeyWindow }] ++
          [{ rawType := 12, flags := 0, focus := FocusProbeResult.noKeyWindow }]))).2 =
      (if main_window_is_key (FocusProbeResult.title "spaceduck")
        then [Signal.startChat, Signal.stopChat]
        else [Signal.startGlobal, Signal.stopGlobal]) :=
  claim3_focus_fixed_at_press false initialState
    { rawType := 12, flags := 0x800000, focus := FocusProbeResult.title "spaceduck" }
    [{ rawType := 12, flags := 0x800000, focus := FocusProbeResult.noKeyWindow }]
    { rawType := 12, flags := 0, focus := FocusProbeResult.noKeyWindow }
    (by decide) (by decide) (by decide) (by decide)

/-- Claim C4: a delivery whose reported type is one of the two sentinel
tap-disabled codes (0xFFFFFFFE disabled-by-timeout, 0xFFFFFFFF
disabled-by-user-input) re-enables the tap through the stored port exactly
when that port is non-null, returns no replacement event, leaves both
trigger fields untouched whatever their current values, and emits no
signal; consequently processing any later event from the post-sentinel
state coincides with processing it from the pre-sentinel state, so a
sentinel between a down-edge and its up-edge does not prevent the pending
stop emission. -/
theorem claim4_sentinel_no_mutation (pn : Bool) (st : TriggerState)
    (ev : RawEvent) (hs : isSentinelType ev.rawType = true) :
    (tapCallback pn st ev).1 = st ∧
    (tapCallback pn st ev).2.2 = none ∧
    signalsOf (tapCallback pn st ev).2.1 = [] ∧
    (tapCallback pn st ev).2.1 = (if pn then [] else [Effect.reenableTap]) ∧
    ∀ ev2 : RawEvent,
      tapCallback pn (tapCallback pn st ev).1 ev2 = tapCallback pn st ev2 := by
  have h1 : tapCallback pn st ev =
      (st, (if pn then [] else [Effect.reenableTap]), none) := by
    simp [tapCallback, hs]
  refine ⟨by simp [h1], by simp [h1], ?_, by simp [h1], fun ev2 => by simp [h1]⟩
  cases pn <;> simp [h1, signalsOf, effectSignal]

/-- Witness for claim C4: a concrete disabled-by-timeout sentinel arriving
mid-hold (key recorded down, mode Global pending) leaves the state intact. -/
theorem claim4_witness :
    (tapCallback false { fnIsDown := true, recordingMode := 2 }
      { rawType := 0xFFFFFFFE, flags := 0, focus := FocusProbeResult.noKeyWindow }).1 =
      { fnIsDown := true, recordingMode := 2 } :=
  (claim4_sentinel_no_mutation false { fnIsDown := true, recordingMode := 2 }
    { rawType := 0xFFFFFFFE, flags := 0, focus := FocusProbeResult.noKeyWindow }
    (by decide)).1

theorem main_window_is_key_iff (env : FocusProbeResult) :
    main_window_is_key env = true ↔ env = FocusProbeResult.title "spaceduck" := by
  cases env <;> simp [main_window_is_key]

/-- Claim C6: the focus probe fails safe.  Each way the query can fail to
determine focus (no key window, null title handle, null UTF-8 string
handle) yields false, and a down-edge observed under any of those failures
completes normally as an unfocused press: mode Global is committed, the
indicator is repositioned, start-global is emitted, and the callback
returns no replacement event rather than an error. -/
theorem claim6_focus_fail_safe :
    main_window_is_key FocusProbeResult.noKeyWindow = false ∧
    main_window_is_key FocusProbeResult.noTitle = false ∧
    main_window_is_key FocusProbeResult.nullUtf8 = false ∧
    ∀ (pn : Bool) (st : TriggerState) (ev : RawEvent),
      isDownEdge st ev = true →
      (ev.focus = FocusProbeResult.noKeyWindow ∨
        ev.focus = FocusProbeResult.noTitle ∨
        ev.focus = FocusProbeResult.nullUtf8) →
      tapCallback pn st ev =
        ({ fnIsDown := true, recordingMode := 2 },
          [Effect.repositionPill, Effect.emit Signal.startGlobal], none) := by
  refine ⟨rfl, rfl, rfl, fun pn st ev hD hf => ?_⟩
  have h := tapCallback_downEdge pn st ev hD
  have hfk : main_window_is_key ev.focus = false := by
    rcases hf with h2 | h2 | h2 <;> rw [h2] <;> rfl
  rw [h, hfk]
  simp

/-- Witness for claim C6: a concrete down-edge whose probe found a key
window with a null title handle is treated as an unfocused global press. -/
theorem claim6_witness :
    tapCallback false initialState
      { rawType := 12, flags := 0x800000, focus := FocusProbeResult.noTitle } =
      ({ fnIsDown := true, recordingMode := 2 },
        [Effect.repositionPill, Effect.emit Signal.startGlobal], none) :=
  claim6_focus_fail_safe.2.2.2 false initialState
    { rawType := 12, flags := 0x800000, focus := FocusProbeResult.noTitle }
    (by decide) (Or.inr (Or.inl rfl))

/-- Claim C10: the probe classifies the press as focused exactly when the
reported key window chain succeeds and the title string equals the exact
string sentinel of the main window; accordingly a down-edge commits mode
Chat precisely on that title and mode Global on every other probe
outcome. -/
theorem claim10_focus_classification (env : FocusProbeResult) :
    (main_window_is_key env = true ↔ env = FocusProbeResult.title "spaceduck") ∧
    ∀ (pn : Bool) (st : TriggerState) (ev : RawEvent),
      isDownEdge st ev = true →
      (((tapCallback pn st ev).1.recordingMode = 1 ↔
          ev.focus = FocusProbeResult.title "spaceduck") ∧
       ((tapCallback pn st ev).1.recordingMode = 2 ↔
          ¬ ev.focus = FocusProbeResult.title "spaceduck")) := by
  refine ⟨main_window_is_key_iff env, fun pn st ev hD => ?_⟩
  have h := tapCallback_downEdge pn st ev hD
  have hiff := main_window_is_key_iff ev.focus
  cases hm : main_window_is_key ev.focus
  · rw [hm] at h hiff
    simp at h hiff
    simp [h, hiff]
  · rw [hm] at h hiff
    simp at h hiff
    simp [h, hiff]

/-- Witness for claim C10: a concrete down-edge whose probe saw a key
window titled with a different string commits mode Global. -/
theorem claim10_witness :
    ((tapCallback false initialState
      { rawType := 12, flags := 0x800000,
        focus := FocusProbeResult.title "Finder" }).1.recordingMode = 1 ↔
      FocusProbeResult.title "Finder" = FocusProbeResult.title "spaceduck") ∧
    ((tapCallback false initialState
      { rawType := 12, flags := 0x800000,
        focus := FocusProbeResult.title "Finder" }).1.recordingMode = 2 ↔
      ¬ FocusProbeResult.title "Finder" = FocusProbeResult.title "spaceduck") :=
  (claim10_focus_classification (FocusProbeResult.title "Finder")).2
    false initialState
    { rawType := 12, flags := 0x800000, focus := FocusProbeResult.title "Finder" }
    (by decide)

/-- Fixed backoff of the outer supervision loop:
std::thread::sleep(Duration::from_secs(2)). -/
def backoffSecs : Nat := 2

/-- The outer loop of start, modelled over the sequence of run_tap
outcomes it would observe: break on Ok; on Err log, sleep backoffSecs and
retry.  Result: some (number of failed attempts, the sleeps performed in
seconds) once an attempt succeeds; none when every supplied outcome failed
and the loop is still retrying. -/
def startLoop : List (Except String Unit) → Option (Nat × List Nat)
  | [] => none
  | Except.ok _ :: _ => some (0, [])
  | Except.error _ :: rest =>
    match startLoop rest with
    | some p => some (p.1 + 1, backoffSecs :: p.2)
    | none => none

/-- Claim C8: the supervision loop retries forever with a fixed 2-second
backoff.  Any number n of consecutive failures followed by one success
makes the loop terminate normally after exactly n backoff sleeps of
backoffSecs each, with no bound on n; and as long as only failures have
occurred the loop is still retrying rather than giving up. -/
theorem claim8_retry_forever (n : Nat) (msg : String) :
    startLoop (List.replicate n (Except.error msg) ++ [Except.ok ()]) =
      some (n, List.replicate n backoffSecs) ∧
    startLoop (List.replicate n (Except.error msg)) = none ∧
    backoffSecs = 2 := by
  refine ⟨?_, ?_, rfl⟩
  · induction n with
    | zero => rfl
    | succ k ih => simp [List.replicate_succ, startLoop, ih]
  · induction n with
    | zero => rfl
    | succ k ih => simp [List.replicate_succ, startLoop, ih]

/-- Pump quantum of the bounded-wait loop:
CFRunLoop::run_in_mode(kCFRunLoopDefaultMode, Duration::from_secs(5), false). -/
def pumpQuantumSecs : Nat := 5

/-- Result values CFRunLoop::run_in_mode can report. -/
inductive CFRunLoopRunResult where
  | finished : CFRunLoopRunResult
  | stopped : CFRunLoopRunResult
  | timedOut : CFRunLoopRunResult
  | handledSource : CFRunLoopRunResult
deriving DecidableEq

/-- The bounded-wait pump at the end of run_tap, modelled over the
sequence of run-loop results: each iteration runs one quantum, then calls
tap.enable() unconditionally, then breaks exactly when the result was
Finished.  Returns (number of tap.enable() calls performed, whether the
pump loop exited). -/
def pumpLoop : List CFRunLoopRunResult → Nat × Bool
  | [] => (0, false)
  | r :: rest =>
    if r = CFRunLoopRunResult.finished then (1, true)
    else ((pumpLoop rest).1 + 1, (pumpLoop rest).2)

/-- What run_tap returns once the pump loop exits: the statement after the
loop is unconditionally Err("CFRunLoop exited unexpectedly"); none while
the pump is still running. -/
def runTapOutcome (results : List CFRunLoopRunResult) :
    Option (Except String Unit) :=
  if (pumpLoop results).2 then some (Except.error "CFRunLoop exited unexpectedly")
  else none

/-- Claim C9: the pump re-enables the tap once per quantum unconditionally
(also on results that do not report the tap disabled, and once more even on
the final Finished quantum), exits exactly when the run loop reports
Finished (termination of the run loop), and in that case the installation
attempt returns the run-loop error — never Ok — so the supervisor
reinstalls from scratch. -/
theorem claim9_pump_reenable_and_fail (results : List CFRunLoopRunResult) :
    (∀ (r : CFRunLoopRunResult) (rest : List CFRunLoopRunResult),
      ¬ r = CFRunLoopRunResult.finished →
      pumpLoop (r :: rest) = ((pumpLoop rest).1 + 1, (pumpLoop rest).2)) ∧
    (∀ rest : List CFRunLoopRunResult,
      pumpLoop (CFRunLoopRunResult.finished :: rest) = (1, true)) ∧
    ((pumpLoop results).2 = true ↔ CFRunLoopRunResult.finished ∈ results) ∧
    ((pumpLoop results).2 = true →
      runTapOutcome results = some (Except.error "CFRunLoop exited unexpectedly")) ∧
    (∀ e : Except String Unit, runTapOutcome results = some e →
      e = Except.error "CFRunLoop exited unexpectedly") ∧
    pumpQuantumSecs = 5 := by
  refine ⟨fun r rest hr => by simp [pumpLoop, hr],
    fun rest => by simp [pumpLoop], ?_, ?_, ?_, rfl⟩
  · induction results with
    | nil => simp [pumpLoop]
    | cons r rest ih =>
      by_cases hr : r = CFRunLoopRunResult.finished
      · simp [pumpLoop, hr]
      · simp [pumpLoop, hr, ih]
        exact fun h => absurd h.symm hr
  · intro h
    simp [runTapOutcome, h]
  · intro e he
    by_cases h : (pumpLoop results).2 <;> simp [runTapOutcome, h] at he
    exact he.symm

/-- Witness for claim C9: a concrete pump history of two timeouts and a
stop followed by run-loop termination performs four re-enables and makes
the attempt fail with the run-loop error. -/
theorem claim9_witness :
    runTapOutcome [CFRunLoopRunResult.timedOut, CFRunLoopRunResult.stopped,
      CFRunLoopRunResult.timedOut, CFRunLoopRunResult.finished] =
      some (Except.error "CFRunLoop exited unexpectedly") :=
  (claim9_pump_reenable_and_fail
    [CFRunLoopRunResult.timedOut, CFRunLoopRunResult.stopped,
      CFRunLoopRunResult.timedOut, CFRunLoopRunResult.finished]).2.2.2.1
    (by decide)

end Spaceduck
